import Mathlib

/-!
Verification of the tunneller relay protocol (skx/tunneller).

Shallow embedding of the MQ-based gateway (`serveCmd.HTTPHandler` and
`RemoteIP`), the agent (`clientCmd.onMessage` in `cmd_client.go`), and the
websocket-era server routing check (`serveCmd.HTTPHandlerHTTP` in
`cmd_server.go`).  Go strings are embedded as `List Char`; every relevant
operation in the source is ASCII-level, so characters stand in for bytes.
-/

set_option maxRecDepth 4096

/-- Go strings / byte slices, embedded as lists of characters. -/
abbrev Str := List Char

/-- Coerce a Lean string literal into the embedding. -/
def str (s : String) : Str := s.toList

/-- The apostrophe character (U+0027), built numerically. -/
def apos : Char := Char.ofNat 39

/-- Model of `strings.HasPrefix(s, pre)`. -/
def goStartsWith (s pre : Str) : Bool := pre.isPrefixOf s

/-- Model of `strings.Split(s, sep)` for a single-character separator
(the source only ever splits on ".", ",", ":" and " "). -/
def goSplitChar (sep : Char) : Str → List Str
  | [] => [[]]
  | c :: rest =>
    if c = sep then [] :: goSplitChar sep rest
    else
      match goSplitChar sep rest with
      | [] => [[c]]
      | g :: gs => (c :: g) :: gs

/-- The response marker `"X-"` (cmd_client.go line 116, part_010 line 184). -/
def respMarker : Str := str "X-"

/-- Strip the response marker: `tmp[2:]` in the gateway callback
(part_010 line 185). -/
def stripRespMarker (p : Str) : Str := p.drop 2

/-- The gateway subscription callback (part_010 lines 172-187): a payload
starting with `X-` replaces the pending response with the payload minus its
two leading bytes; any other payload leaves the response untouched. -/
def gwCallback (response : Str) (payload : Str) : Str :=
  if goStartsWith payload respMarker then stripRespMarker payload else response

/-- The gateway busy-wait loop body (part_010 lines 205-214):
`for len(response) == 0 && count < 40 { sleep(250ms); count++ }`.
`obs c` is the value of `response` observed at the check with `count = c`;
the fuel argument makes the recursion structural (the guard `count < 40`
bounds the real loop by 40 iterations, so fuel 40 is exact). -/
def waitIter (obs : Nat → Str) : Nat → Nat → Nat
  | 0, c => c
  | fuel + 1, c =>
    if (obs c).length = 0 ∧ c < 40 then waitIter obs fuel (c + 1) else c

/-- The final value of `count` when the wait loop of part_010 exits,
starting from `count = 0`. -/
def waitCount (obs : Nat → Str) : Nat := waitIter obs 40 0

/-- The explanatory line of the gateway timeout body (part_010 line 250),
without the surrounding `<p>` tags. -/
def timeoutLine : Str :=
  str "We didn" ++ [apos] ++
    str "t receive a reply from the remote host, despite waiting 10 seconds."

/-- The gateway 503 timeout body (part_010 lines 243-253), byte-exact:
a Go raw-string literal with LF line endings and a trailing newline. -/
def timeout503 : Str :=
  str "HTTP/1.0 503 OK\nContent-type: text/html; charset=UTF-8\nConnection: close\n\n<!DOCTYPE html>\n<html>\n<body>\n<p>" ++
    timeoutLine ++ str "</p>\n</body>\n</html>\n"

/-- The substitution after the wait loop (part_010 lines 236-254): an empty
response is replaced by the timeout 503 body; anything else is written to the
hijacked socket verbatim (lines 285-287). -/
def afterWait (r : Str) : Str := if r.length = 0 then timeout503 else r

/-- The agent fallback body (cmd_client.go lines 141-150), byte-exact:
a Go raw-string literal with LF line endings and no trailing newline. -/
def clientFallback503 : Str :=
  str "HTTP/1.0 503 OK\nContent-type: text/html; charset=UTF-8\nConnection: close\n\n<!DOCTYPE html>\n<html>\n<body>\n<p>The remote server was unreachable.</p>\n</body>\n</html>"

/-- Label derivation (part_010 lines 113-117, identically cmd_server.go lines
116-120): `if strings.Contains(host, ".") { host = strings.Split(host, ".")[0] }`. -/
def labelOf (host : Str) : Str :=
  if '.' ∈ host then (goSplitChar '.' host).headD [] else host

/-- Characters accepted by Go `unicode.IsSpace` (the set trimmed by
`strings.TrimSpace`). -/
def goIsSpace (c : Char) : Bool :=
  c = ' ' ∨ c.toNat = 9 ∨ c.toNat = 10 ∨ c.toNat = 11 ∨ c.toNat = 12 ∨
    c.toNat = 13 ∨ c.toNat = 0x85 ∨ c.toNat = 0xA0 ∨
    (0x2000 ≤ c.toNat ∧ c.toNat ≤ 0x200a) ∨ c.toNat = 0x1680 ∨
    c.toNat = 0x2028 ∨ c.toNat = 0x2029 ∨ c.toNat = 0x202f ∨
    c.toNat = 0x205f ∨ c.toNat = 0x3000

/-- Model of `strings.TrimSpace`. -/
def goTrimSpace (s : Str) : Str :=
  (((s.dropWhile goIsSpace).reverse).dropWhile goIsSpace).reverse

/-- Model of the host half of `net.SplitHostPort`, restricted to the
unbracketed `host:port` form: split at the last colon; a host that still
contains a colon or a bracket is an error (Go would report too many colons
or a malformed bracket).  Bracketed IPv6 literals are outside this model.
On error Go returns `host = ""`, modelled as `none` (the caller in
`RemoteIP` uses the zero value). -/
def splitHostPortHost (addr : Str) : Option Str :=
  let rev := addr.reverse
  if ':' ∈ rev then
    let host := ((rev.dropWhile (fun c => c ≠ ':')).drop 1).reverse
    if ':' ∈ host ∨ '[' ∈ host ∨ ']' ∈ host then none else some host
  else none

/-- Model of `RemoteIP` (part_010 lines 72-97).  `xff` is the value of the
`X-Forwarded-For` header (`[]` when absent, as `Header.Get` returns `""`);
`remoteAddr` is `request.RemoteAddr`. -/
def remoteIP (xff : Str) (remoteAddr : Str) : Str :=
  if xff = [] then (splitHostPortHost remoteAddr).getD []
  else
    let entries := goSplitChar ',' xff
    let address := goTrimSpace (entries.headD [])
    if ':' ∈ address then (goSplitChar ':' address).headD []
    else address

/-- The MQ operations performed by the gateway handler, in order. -/
inductive MqAction where
  | pub (topic : Str) (payload : Str)
  | sub (topic : Str)
  | unsub (topic : Str)
deriving DecidableEq, Repr

/-- True exactly on a publish action. -/
def isPubAct : MqAction → Bool
  | .pub _ _ => true
  | _ => false

/-- True exactly on a subscribe action. -/
def isSubAct : MqAction → Bool
  | .sub _ => true
  | _ => false

/-- The sequence of MQ operations the gateway handler performs for one
inbound request, translated from part_010: publish the envelope to
`clients/<label>` (line 161), then subscribe to the same topic installing
the `X-` callback (line 172), then unsubscribe (line 222).  `host` is the
`Host` header, `envelope` the JSON-encoded request. -/
def handlerTrace (host : Str) (envelope : Str) : List MqAction :=
  let label := labelOf host
  [ .pub (str "clients/" ++ label) envelope
  , .sub (str "clients/" ++ label)
  , .unsub (str "clients/" ++ label) ]

/-- The request envelope (part_006 `type Request struct`): the raw HTTP
request, the source IP, and the response slot filled in by the agent. -/
structure Request where
  request : Str
  source : Str
  response : Str
deriving DecidableEq, Repr

/-- JSON whitespace, as skipped by Go `encoding/json`. -/
def jsonWs (s : Str) : Str :=
  s.dropWhile (fun c => c = ' ' ∨ c.toNat = 9 ∨ c.toNat = 10 ∨ c.toNat = 13)

/-- Value of one hexadecimal digit, for `\u` escapes. -/
def hexVal (c : Char) : Option Nat :=
  if '0' ≤ c ∧ c ≤ '9' then some (c.toNat - 48)
  else if 'a' ≤ c ∧ c ≤ 'f' then some (c.toNat - 87)
  else if 'A' ≤ c ∧ c ≤ 'F' then some (c.toNat - 70)
  else none

/-- Parse the body of a JSON string after its opening quote, returning the
decoded characters and the remainder after the closing quote.  Escapes are
those of RFC 8259 as accepted by Go `encoding/json`; raw control characters
are rejected.  Fuel makes the recursion structural; callers pass at least
the input length. -/
def parseStringBody : Nat → Str → Option (Str × Str)
  | 0, _ => none
  | _, [] => none
  | fuel + 1, c :: rest =>
    if c = '"' then some ([], rest)
    else if c = '\\' then
      match rest with
      | [] => none
      | e :: r =>
        if e = '"' then (parseStringBody fuel r).map (fun p => ('"' :: p.1, p.2))
        else if e = '\\' then (parseStringBody fuel r).map (fun p => ('\\' :: p.1, p.2))
        else if e = '/' then (parseStringBody fuel r).map (fun p => ('/' :: p.1, p.2))
        else if e = 'b' then (parseStringBody fuel r).map (fun p => (Char.ofNat 8 :: p.1, p.2))
        else if e = 'f' then (parseStringBody fuel r).map (fun p => (Char.ofNat 12 :: p.1, p.2))
        else if e = 'n' then (parseStringBody fuel r).map (fun p => ('\n' :: p.1, p.2))
        else if e = 'r' then (parseStringBody fuel r).map (fun p => (Char.ofNat 13 :: p.1, p.2))
        else if e = 't' then (parseStringBody fuel r).map (fun p => ('\t' :: p.1, p.2))
        else if e = 'u' then
          match r with
          | h1 :: h2 :: h3 :: h4 :: rr =>
            match hexVal h1, hexVal h2, hexVal h3, hexVal h4 with
            | some a, some b, some cc, some d =>
              (parseStringBody fuel rr).map
                (fun p => (Char.ofNat (a * 4096 + b * 256 + cc * 16 + d) :: p.1, p.2))
            | _, _, _, _ => none
          | _ => none
        else none
    else if c.toNat < 32 then none
    else (parseStringBody fuel rest).map (fun p => (c :: p.1, p.2))

/-- A JSON value in the fragment the decoder model understands: a string,
the literal `null`, or some other scalar (number, `true`, `false`).
`null` is kept apart because Go unmarshals it into any field with no effect
and no error, while the other non-string scalars are type errors for a
string field. -/
inductive JVal where
  | jstr (s : Str)
  | jnull
  | other
deriving DecidableEq, Repr

/-- Consume the digits of a JSON number component. -/
def spanDigits (s : Str) : Str × Str :=
  (s.takeWhile Char.isDigit, s.dropWhile Char.isDigit)

/-- Parse an optional JSON fraction part. -/
def parseFrac (s : Str) : Option Str :=
  match s with
  | '.' :: rest =>
    let p := spanDigits rest
    if p.1 = [] then none else some p.2
  | _ => some s

/-- Parse an optional JSON exponent part. -/
def parseExp (s : Str) : Option Str :=
  match s with
  | c :: rest =>
    if c = 'e' ∨ c = 'E' then
      let rest2 := match rest with
                   | sg :: r2 => if sg = '+' ∨ sg = '-' then r2 else rest
                   | [] => rest
      let p := spanDigits rest2
      if p.1 = [] then none else some p.2
    else some s
  | [] => some []

/-- Parse a JSON number (RFC 8259 grammar: no leading zeros), returning the
remainder. -/
def parseNumber (s : Str) : Option Str :=
  let s1 := match s with
            | '-' :: r => r
            | _ => s
  match s1 with
  | '0' :: rest => (parseFrac rest).bind parseExp
  | c :: rest =>
    if c.isDigit then
      let p := spanDigits rest
      (parseFrac p.2).bind parseExp
    else none
  | [] => none

/-- Parse one JSON value of the flat fragment: a string or a non-string
scalar.  Nested objects and arrays are outside the model (the envelope the
gateway produces is a flat object of strings). -/
def parseValue (fuel : Nat) (s : Str) : Option (JVal × Str) :=
  match s with
  | '"' :: rest => (parseStringBody fuel rest).map (fun p => (JVal.jstr p.1, p.2))
  | 't' :: 'r' :: 'u' :: 'e' :: r => some (JVal.other, r)
  | 'f' :: 'a' :: 'l' :: 's' :: 'e' :: r => some (JVal.other, r)
  | 'n' :: 'u' :: 'l' :: 'l' :: r => some (JVal.jnull, r)
  | _ => (parseNumber s).map (fun r => (JVal.other, r))

/-- ASCII case-insensitive key comparison, modelling Go JSON field matching
(exact or case-insensitive fold). -/
def ciEq (a b : Str) : Bool := a.map Char.toLower == b.map Char.toLower

/-- Assign one decoded key/value pair into the `Request` struct, following
Go `encoding/json`: keys match struct fields case-insensitively, JSON `null`
for a known field has no effect and produces no error, any other non-string
value for a known field is a type error, unknown keys are ignored. -/
def applyField (acc : Request) (key : Str) (v : JVal) : Option Request :=
  if ciEq key (str "Request") then
    match v with
    | .jstr s => some { acc with request := s }
    | .jnull => some acc
    | .other => none
  else if ciEq key (str "Source") then
    match v with
    | .jstr s => some { acc with source := s }
    | .jnull => some acc
    | .other => none
  else if ciEq key (str "Response") then
    match v with
    | .jstr s => some { acc with response := s }
    | .jnull => some acc
    | .other => none
  else some acc

/-- Parse the members of the envelope object after its opening brace:
`ws string ws : ws value ws` then a comma (more members) or the closing
brace.  Later duplicate keys overwrite earlier ones, as in Go. -/
def parseMembers : Nat → Request → Str → Option (Request × Str)
  | 0, _, _ => none
  | fuel + 1, acc, s =>
    match jsonWs s with
    | '"' :: rest =>
      match parseStringBody fuel rest with
      | none => none
      | some (key, r1) =>
        match jsonWs r1 with
        | ':' :: r3 =>
          match parseValue fuel (jsonWs r3) with
          | none => none
          | some (v, r4) =>
            match applyField acc key v with
            | none => none
            | some acc2 =>
              match jsonWs r4 with
              | ',' :: r6 => parseMembers fuel acc2 r6
              | '}' :: r7 => some (acc2, r7)
              | _ => none
        | _ => none
    | _ => none

/-- Model of `json.Unmarshal(payload, &req)` for the `Request` struct
(cmd_client.go line 124), restricted to flat JSON objects whose values are
strings or non-string scalars — the shape of every envelope the gateway
emits.  Missing fields keep their zero value (the empty string), and a JSON
`null` for a known field is accepted with no effect; Go fails on malformed
JSON or a non-null type mismatch, never on an absent field.  Inputs outside
the flat fragment are rejected. -/
def jsonDecodeRequest (p : Str) : Option Request :=
  match jsonWs p with
  | '{' :: rest =>
    match jsonWs rest with
    | '}' :: r2 => if jsonWs r2 = [] then some ⟨[], [], []⟩ else none
    | _ =>
      match parseMembers (p.length + 1) ⟨[], [], []⟩ rest with
      | none => none
      | some (req, rem) => if jsonWs rem = [] then some req else none
  | _ => none

example : jsonDecodeRequest (str "\x7b\x7d") = some ⟨[], [], []⟩ := by decide
example : jsonDecodeRequest (str "\x7b\"Request\":\"GET / HTTP/1.0\",\"Source\":\"1.2.3.4\",\"Response\":\"\"\x7d")
    = some ⟨str "GET / HTTP/1.0", str "1.2.3.4", []⟩ := by decide
example : jsonDecodeRequest (str "not-json") = none := by decide
example : jsonDecodeRequest [] = none := by decide
example : jsonDecodeRequest (str "\x7b\"Request\":null\x7d") = some ⟨[], [], []⟩ := by decide
example : jsonDecodeRequest (str "\x7b\"Request\":5\x7d") = none := by decide

/-- The agent state mutated by `onMessage`: the status-code counters
(Go map `stats map[string]int`, embedded as an association list) and the
recent-requests list. -/
structure AgentState where
  stats : List (Str × Nat)
  requests : List Request
deriving DecidableEq, Repr

/-- Go map increment `p.stats[code]++` (an absent key counts from zero). -/
def bumpStat : List (Str × Nat) → Str → List (Str × Nat)
  | [], k => [(k, 1)]
  | (k2, v) :: rest, k =>
    if k2 = k then (k2, v + 1) :: rest else (k2, v) :: bumpStat rest k

/-- cmd_client.go lines 214-221: keep only the 5 most recent requests. -/
def truncateRequests (l : List Request) : List Request :=
  if l.length > 5 then l.drop (l.length - 5) else l

/-- Everything one `onMessage` invocation does: the new agent state, the
messages it publishes, and whether it dialled the exposed service or
attempted a JSON decode at all. -/
structure AgentOutcome where
  state : AgentState
  pubs : List (Str × Str)
  dialed : Bool
  decodeTried : Bool
deriving DecidableEq, Repr

/-- Model of `clientCmd.onMessage` (cmd_client.go lines 101-228).  `name` is
the agent label, `st` the current state, `payload` the received message.
`dialResult` abstracts the network: `none` when `net.Dial("tcp", p.expose)`
fails, `some reply` when it succeeds and the exposed service returns `reply`
before closing (the bytes `io.Copy` reads until EOF). -/
def onMessage (name : Str) (st : AgentState) (payload : Str)
    (dialResult : Option Str) : AgentOutcome :=
  if goStartsWith payload respMarker then
    { state := st, pubs := [], dialed := false, decodeTried := false }
  else
    match jsonDecodeRequest payload with
    | none => { state := st, pubs := [], dialed := false, decodeTried := true }
    | some req =>
      let result := match dialResult with
                    | none => clientFallback503
                    | some reply => reply
      let tmp := goSplitChar ' ' result
      let stats2 := if tmp.length > 1 then bumpStat st.stats (tmp.getD 1 []) else st.stats
      let req2 := { req with response := result }
      { state := { stats := stats2,
                   requests := truncateRequests (st.requests ++ [req2]) },
        pubs := [(str "clients/" ++ name, str "X-" ++ result)],
        dialed := true, decodeTried := true }

example :
    onMessage (str "cake") ⟨[], []⟩ (str "X-whatever") (some (str "ignored"))
      = { state := ⟨[], []⟩, pubs := [], dialed := false, decodeTried := false } := by
  decide

example :
    (onMessage (str "cake") ⟨[], []⟩ (str "\x7b\x7d") none).pubs
      = [(str "clients/cake", str "X-" ++ clientFallback503)] := by decide

example :
    (onMessage (str "cake") ⟨[], []⟩ (str "\x7b\x7d") (some [])).pubs
      = [(str "clients/cake", str "X-")] := by decide

/-- An HTTP status and body as delivered to the caller. -/
structure HttpResp where
  status : Nat
  body : Str
deriving DecidableEq, Repr

/-- The offline message of cmd_server.go line 129: the format string
`The request cannot be made to %s as the host is offline!` with the derived
host label substituted for `%s` and wrapped in single quotes. -/
def offlineBody (host : Str) : Str :=
  str "The request cannot be made to " ++ [apos] ++ host ++ [apos] ++
    str " as the host is offline!"

/-- The routing decision of `serveCmd.HTTPHandlerHTTP` (cmd_server.go lines
107-131): derive the label from the Host header; when no live connection is
assigned to it, write the offline message and return.  Writing through the
`ResponseWriter` without a `WriteHeader` call sends status 200 (the net/http
default).  `assigned` is the connection map restricted to liveness;
`none` means the handler proceeds to the relay (outside this model). -/
def routeHTTP (assigned : Str → Bool) (hostHeader : Str) : Option HttpResp :=
  let host := labelOf hostHeader
  if assigned host then none
  else some ⟨200, offlineBody host⟩

/-! ### Helper lemmas -/

theorem goSplitChar_ne_nil (sep : Char) (s : Str) : goSplitChar sep s ≠ [] := by
  cases s with
  | nil => simp [goSplitChar]
  | cons c rest =>
    by_cases h : c = sep
    · simp [goSplitChar, h]
    · simp only [goSplitChar, if_neg h]
      cases goSplitChar sep rest with
      | nil => simp
      | cons g gs => simp

theorem goSplitChar_headD (sep : Char) (s : Str) :
    (goSplitChar sep s).headD [] = s.takeWhile (fun c => c != sep) := by
  induction s with
  | nil => simp [goSplitChar]
  | cons c rest ih =>
    by_cases h : c = sep
    · simp [goSplitChar, h, List.takeWhile]
    · simp only [goSplitChar, if_neg h, List.takeWhile_cons]
      have hb : (c != sep) = true := by simpa using h
      rw [hb]
      rcases hg : goSplitChar sep rest with _ | ⟨g, gs⟩
      · exact absurd hg (goSplitChar_ne_nil sep rest)
      · simp only [List.headD_cons, if_true]
        have := ih
        rw [hg] at this
        simp only [List.headD_cons] at this
        simp [this]

theorem takeWhile_ne_of_not_mem (c : Char) (s : Str) (h : c ∉ s) :
    s.takeWhile (fun x => x != c) = s := by
  induction s with
  | nil => rfl
  | cons a rest ih =>
    simp only [List.mem_cons, not_or] at h
    have ha : (a != c) = true := by
      simp only [bne_iff_ne, ne_eq]
      exact fun e => h.1 e.symm
    simp [List.takeWhile_cons, ha, ih h.2]

theorem dropWhile_all_append (p : Char → Bool) (l t : Str)
    (h : ∀ a ∈ l, p a = true) : (l ++ t).dropWhile p = t.dropWhile p := by
  induction l with
  | nil => rfl
  | cons a rest ih =>
    have ha : p a = true := h a (List.mem_cons_self a rest)
    simp only [List.cons_append, List.dropWhile_cons, ha, if_true]
    exact ih (fun b hb => h b (List.mem_cons_of_mem a hb))

theorem splitHostPortHost_eq (h p : Str)
    (hc : ':' ∉ h) (hp : ':' ∉ p) (hl : '[' ∉ h) (hr : ']' ∉ h) :
    splitHostPortHost (h ++ ':' :: p) = some h := by
  have hrev : (h ++ ':' :: p).reverse = p.reverse ++ ':' :: h.reverse := by
    simp
  have hmem : ':' ∈ (h ++ ':' :: p).reverse := by simp
  have hdrop : ((h ++ ':' :: p).reverse).dropWhile (fun c => c ≠ ':')
      = ':' :: h.reverse := by
    rw [hrev, dropWhile_all_append]
    · simp [List.dropWhile_cons]
    · intro a ha
      simp only [List.mem_reverse] at ha
      simp only [ne_eq, decide_eq_true_eq]
      intro e
      exact hp (e ▸ ha)
  simp only [splitHostPortHost, if_pos hmem, hdrop]
  have hh : ((':' :: h.reverse).drop 1).reverse = h := by simp
  rw [hh]
  have : ¬ (':' ∈ h ∨ '[' ∈ h ∨ ']' ∈ h) := by
    simp [hc, hl, hr]
  simp [this]

theorem goStartsWith_marker (r : Str) :
    goStartsWith (str "X-" ++ r) respMarker = true := by
  unfold goStartsWith respMarker
  rw [List.isPrefixOf_iff_prefix]
  exact List.prefix_append _ _

theorem waitIter_le (obs : Nat → Str) (fuel c : Nat) :
    waitIter obs fuel c ≤ c + fuel := by
  induction fuel generalizing c with
  | zero => simp [waitIter]
  | succ f ih =>
    simp only [waitIter]
    by_cases h : (obs c).length = 0 ∧ c < 40
    · rw [if_pos h]
      calc waitIter obs f (c + 1) ≤ (c + 1) + f := ih (c + 1)
        _ = c + (f + 1) := by omega
    · rw [if_neg h]; omega

theorem waitIter_early (obs : Nat → Str) (fuel c : Nat) (h : obs c ≠ []) :
    waitIter obs (fuel + 1) c = c := by
  have hl : ¬ ((obs c).length = 0 ∧ c < 40) := by
    intro hcon
    exact h (List.length_eq_zero.mp hcon.1)
  simp only [waitIter]
  rw [if_neg hl]

theorem labelOf_eq_takeWhile (h : Str) :
    labelOf h = h.takeWhile (fun c => c != '.') := by
  unfold labelOf
  by_cases hm : '.' ∈ h
  · rw [if_pos hm, goSplitChar_headD]
  · rw [if_neg hm, takeWhile_ne_of_not_mem _ _ hm]

theorem strip_marker_append (r : Str) : stripRespMarker (str "X-" ++ r) = r := by
  have h2 : str "X-" = ['X', '-'] := by decide
  rw [stripRespMarker, h2]
  rfl

theorem gwCallback_marker (old r : Str) : gwCallback old (str "X-" ++ r) = r := by
  simp [gwCallback, goStartsWith_marker, strip_marker_append]

example : (routeHTTP (fun _ => false) (str "ghost.t.example")).map HttpResp.status = some 200 := by decide
example : labelOf (str "foo.tunnel.steve.fi") = str "foo" := by decide

/-! ### Claim theorems -/

/-- C1: round-trip fidelity of the response marker.  For every byte sequence
`R` obtained by the agent as a response, the agent publishes `"X-" ++ R` on
its topic; the gateway callback stores that payload minus its two leading
bytes, i.e. exactly `R` (`strip_response_marker ("X-" ++ R) = R`); and for a
nonempty `R` the bytes written to the hijacked socket equal `R`. -/
theorem c1_roundtrip (R old name payload : Str) (st : AgentState) (req : Request)
    (hdec : jsonDecodeRequest payload = some req)
    (hnm : goStartsWith payload respMarker = false) :
    (onMessage name st payload (some R)).pubs
        = [(str "clients/" ++ name, str "X-" ++ R)]
    ∧ stripRespMarker (str "X-" ++ R) = R
    ∧ gwCallback old (str "X-" ++ R) = R
    ∧ (R ≠ [] → afterWait R = R) := by
  refine ⟨?_, strip_marker_append R, gwCallback_marker old R, ?_⟩
  · simp [onMessage, hnm, hdec]
  · intro hne
    rw [afterWait, if_neg]
    exact fun hz => hne (List.length_eq_zero.mp hz)

/-- Witness for C1 at `R = "hi"` with the empty JSON envelope. -/
theorem c1_roundtrip_witness :
    (onMessage (str "cake") ⟨[], []⟩ (str "\x7b\x7d") (some (str "hi"))).pubs
        = [(str "clients/cake", str "X-" ++ str "hi")]
    ∧ afterWait (str "hi") = str "hi" :=
  ⟨(c1_roundtrip (str "hi") [] (str "cake") (str "\x7b\x7d") ⟨[], []⟩
      ⟨[], [], []⟩ (by decide) (by decide)).1,
   (c1_roundtrip (str "hi") [] (str "cake") (str "\x7b\x7d") ⟨[], []⟩
      ⟨[], [], []⟩ (by decide) (by decide)).2.2.2 (by decide)⟩

/-- C2: marker filtering / echo suppression.  A payload beginning with `X-`
makes the agent handler return at once — no decode attempt, no dial, no
publish, and the stats map and recent-requests list are untouched; and a
payload not beginning with `X-` leaves the gateway response mailbox
unchanged. -/
theorem c2_marker_filtering :
    (∀ name payload (st : AgentState) dialResult,
        goStartsWith payload respMarker = true →
          onMessage name st payload dialResult
            = { state := st, pubs := [], dialed := false, decodeTried := false })
    ∧ (∀ resp payload, goStartsWith payload respMarker = false →
        gwCallback resp payload = resp) := by
  constructor
  · intro name payload st dialResult hm
    simp [onMessage, hm]
  · intro resp payload hm
    simp [gwCallback, hm]

/-- Witness for C2: the agent drops its own echoed response, and the gateway
ignores a JSON request payload. -/
theorem c2_marker_filtering_witness :
    onMessage (str "cake") ⟨[(str "200", 3)], []⟩ (str "X-HTTP/1.0 200 OK") (some (str "x"))
        = { state := ⟨[(str "200", 3)], []⟩, pubs := [], dialed := false,
            decodeTried := false }
    ∧ gwCallback (str "pending") (str "\x7b\"Request\":\"GET /\"\x7d") = str "pending" :=
  ⟨c2_marker_filtering.1 (str "cake") (str "X-HTTP/1.0 200 OK") ⟨[(str "200", 3)], []⟩
      (some (str "x")) (by decide),
   c2_marker_filtering.2 (str "pending") (str "\x7b\"Request\":\"GET /\"\x7d") (by decide)⟩

/-- C3: bounded wait with timeout fallback.  The gateway wait loop performs
at most 40 polling iterations (the 250 ms sleeps totalling the 10-second
cap), exits at the first check at which the response is nonempty, and when
the response is still empty afterwards the caller is sent the exact 503
timeout body, whose explanatory line states that no reply was received from
the remote host despite waiting 10 seconds. -/
theorem c3_bounded_wait :
    (∀ obs, waitCount obs ≤ 40)
    ∧ (∀ obs fuel c, obs c ≠ [] → waitIter obs (fuel + 1) c = c)
    ∧ afterWait [] = timeout503
    ∧ timeout503
        = str "HTTP/1.0 503 OK\nContent-type: text/html; charset=UTF-8\nConnection: close\n\n<!DOCTYPE html>\n<html>\n<body>\n<p>"
            ++ timeoutLine ++ str "</p>\n</body>\n</html>\n" := by
  refine ⟨?_, waitIter_early, by simp [afterWait], rfl⟩
  intro obs
  have := waitIter_le obs 40 0
  simpa [waitCount] using this

/-- Witness for C3: a never-filled mailbox runs the full 40 polls and stays
within the bound; a mailbox filled before the first check exits at once. -/
theorem c3_bounded_wait_witness :
    waitCount (fun _ => []) ≤ 40
    ∧ waitIter (fun _ => str "R") 40 0 = 0 :=
  ⟨c3_bounded_wait.1 (fun _ => []),
   c3_bounded_wait.2.1 (fun _ => str "R") 39 0 (by decide)⟩

/-- C4 counterexample: on the concrete request for host `cake.t.example`
the gateway handler does NOT subscribe before it publishes — in the trace
the first subscribe action comes after the first publish action
(part_010 publishes at line 161 and only then subscribes at line 172). -/
theorem c4_counterexample :
    ¬ ((handlerTrace (str "cake.t.example") (str "\x7b\x7d")).findIdx isSubAct
        < (handlerTrace (str "cake.t.example") (str "\x7b\x7d")).findIdx isPubAct) := by
  decide

/-- C4 (amended): for every inbound request the gateway handler publishes
the JSON envelope to `clients/<label>` first, and installs the subscription
with the `X-` callback only afterwards: in the MQ-action trace the publish
is at position 0 and the subscribe at position 1. -/
theorem c4_pub_before_sub (host envelope : Str) :
    (handlerTrace host envelope).findIdx isPubAct = 0
    ∧ (handlerTrace host envelope).findIdx isSubAct = 1 := by
  simp [handlerTrace, isPubAct, isSubAct, List.findIdx_cons]

/-- C5: label derivation and isolation.  The derived label is the substring
of the Host header before the first `.` (the whole host when it has no `.`),
and every topic the handler publishes an envelope to is exactly
`clients/ ++ label`. -/
theorem c5_label_isolation (host envelope : Str) :
    labelOf host = host.takeWhile (fun c => c != '.')
    ∧ (∀ t pl, MqAction.pub t pl ∈ handlerTrace host envelope →
        t = str "clients/" ++ labelOf host) := by
  refine ⟨labelOf_eq_takeWhile host, ?_⟩
  intro t pl hmem
  simp only [handlerTrace, List.mem_cons, List.not_mem_nil, or_false] at hmem
  rcases hmem with h1 | h2 | h3
  · exact (MqAction.pub.injEq _ _ _ _ ▸ h1).1
  · cases h2
  · cases h3

/-- Witness for C5: the only publish topic for host `cake.t.example` is
`clients/cake`. -/
theorem c5_label_isolation_witness :
    str "clients/cake" = str "clients/" ++ labelOf (str "cake.t.example") :=
  (c5_label_isolation (str "cake.t.example") (str "\x7b\x7d")).2
    (str "clients/cake") (str "\x7b\x7d") (by decide)

/-- C6: unreachable-upstream fallback.  When the TCP dial to the exposed
endpoint fails, the agent publishes on `clients/<name>` the payload `X-`
followed by exactly the fixed 503 fallback body (status line
`HTTP/1.0 503 OK`, Content-type and Connection headers, HTML body with
`The remote server was unreachable.`), and the gateway delivers that body
to the caller. -/
theorem c6_unreachable_fallback (name payload old : Str) (st : AgentState) (req : Request)
    (hdec : jsonDecodeRequest payload = some req)
    (hnm : goStartsWith payload respMarker = false) :
    (onMessage name st payload none).pubs
        = [(str "clients/" ++ name, str "X-" ++ clientFallback503)]
    ∧ gwCallback old (str "X-" ++ clientFallback503) = clientFallback503
    ∧ afterWait clientFallback503 = clientFallback503 := by
  refine ⟨?_, gwCallback_marker old clientFallback503, ?_⟩
  · simp [onMessage, hnm, hdec]
  · rw [afterWait, if_neg]
    decide

/-- Witness for C6 with the agent `box` and the empty JSON envelope. -/
theorem c6_unreachable_fallback_witness :
    (onMessage (str "box") ⟨[], []⟩ (str "\x7b\x7d") none).pubs
        = [(str "clients/box", str "X-" ++ clientFallback503)] :=
  (c6_unreachable_fallback (str "box") (str "\x7b\x7d") [] ⟨[], []⟩
    ⟨[], [], []⟩ (by decide) (by decide)).1

/-- C7 counterexample: decoding does NOT fail when required fields are
missing — the empty JSON object `{}` (all fields absent) decodes
successfully to the zero-valued envelope, as Go json.Unmarshal leaves
absent fields at their zero value. -/
theorem c7_counterexample :
    jsonDecodeRequest (str "\x7b\x7d")
      = some { request := [], source := [], response := [] } := by
  decide

/-- C7 (amended): decoding an envelope fails with MalformedEnvelope if JSON
parsing fails; missing required fields are NOT rejected (absent fields
decode to empty strings).  For every payload that does not begin with `X-`
and fails to decode, the agent logs and drops it: it publishes nothing,
dials nothing, and its stats and recent-requests state are unchanged. -/
theorem c7_malformed_drop (name payload : Str) (st : AgentState) (dialResult : Option Str)
    (hnm : goStartsWith payload respMarker = false)
    (hdec : jsonDecodeRequest payload = none) :
    onMessage name st payload dialResult
      = { state := st, pubs := [], dialed := false, decodeTried := true } := by
  simp [onMessage, hnm, hdec]

/-- Witness for C7 on a payload that is neither marked nor valid JSON. -/
theorem c7_malformed_drop_witness :
    onMessage (str "cake") ⟨[(str "200", 1)], []⟩ (str "not-json") none
      = { state := ⟨[(str "200", 1)], []⟩, pubs := [], dialed := false,
          decodeTried := true } :=
  c7_malformed_drop (str "cake") (str "not-json") ⟨[(str "200", 1)], []⟩ none
    (by decide) (by decide)

/-- C8: unknown-label response.  When the derived label names no known
agent, the server replies with status 200 and the plain-text body
`The request cannot be made to <label> as the host is offline!`
(cmd_server.go lines 125-131; the 200 is the net/http default because the
handler never calls WriteHeader). -/
theorem c8_offline_response (assigned : Str → Bool) (hostHeader : Str)
    (hoff : assigned (labelOf hostHeader) = false) :
    routeHTTP assigned hostHeader
      = some ⟨200, str "The request cannot be made to " ++ [apos]
                ++ labelOf hostHeader ++ [apos] ++ str " as the host is offline!"⟩ := by
  simp [routeHTTP, hoff, offlineBody]

/-- Witness for C8 for the host `ghost.t.example` with no agent known. -/
theorem c8_offline_response_witness :
    routeHTTP (fun _ => false) (str "ghost.t.example")
      = some ⟨200, str "The request cannot be made to " ++ [apos]
                ++ labelOf (str "ghost.t.example") ++ [apos] ++ str " as the host is offline!"⟩ :=
  c8_offline_response (fun _ => false) (str "ghost.t.example") (by decide)

/-- C9: source-IP extraction.  With an `X-Forwarded-For` header present the
envelope Source is the first comma-separated entry, trimmed, with any
`:`-suffixed portion removed; with the header absent it is the peer address
with its port removed; in particular
`X-Forwarded-For: 10.0.0.5, 1.2.3.4` yields `10.0.0.5`. -/
theorem c9_source_ip :
    (∀ xff ra, xff ≠ [] →
        remoteIP xff ra
          = (goTrimSpace (xff.takeWhile (fun c => c != ','))).takeWhile
              (fun c => c != ':'))
    ∧ (∀ h p, ':' ∉ h → '[' ∉ h → ']' ∉ h → ':' ∉ p →
        remoteIP [] (h ++ ':' :: p) = h)
    ∧ remoteIP (str "10.0.0.5, 1.2.3.4") (str "9.9.9.9:1234") = str "10.0.0.5" := by
  refine ⟨?_, ?_, by decide⟩
  · intro xff ra hx
    simp only [remoteIP, if_neg hx]
    rw [goSplitChar_headD]
    by_cases hc : ':' ∈ goTrimSpace (xff.takeWhile (fun c => c != ','))
    · rw [if_pos hc, goSplitChar_headD]
    · rw [if_neg hc, takeWhile_ne_of_not_mem _ _ hc]
  · intro h p hc hl hr hp2
    simp only [remoteIP, if_pos rfl]
    rw [splitHostPortHost_eq h p hc hp2 hl hr]
    rfl

/-- Witness for C9: the header case at the concrete literal of the claim,
and the no-header case on the peer address `10.0.0.9:80`. -/
theorem c9_source_ip_witness :
    remoteIP (str "10.0.0.5, 1.2.3.4") (str "9.9.9.9:1234")
        = (goTrimSpace ((str "10.0.0.5, 1.2.3.4").takeWhile (fun c => c != ','))).takeWhile
            (fun c => c != ':')
    ∧ remoteIP [] (str "10.0.0.9" ++ ':' :: str "80") = str "10.0.0.9" :=
  ⟨c9_source_ip.1 (str "10.0.0.5, 1.2.3.4") (str "9.9.9.9:1234") (by decide),
   c9_source_ip.2.1 (str "10.0.0.9") (str "80")
     (by decide) (by decide) (by decide) (by decide)⟩

/-- C10: an empty upstream reply is indistinguishable from no reply.  When
the dial succeeds but the upstream returns zero bytes, the agent publishes
the bare two-byte payload `X-`, the stats map is unchanged, the gateway
callback strips the marker to the empty string, the wait loop therefore runs
all 40 polls, and the caller receives the 503 timeout body. -/
theorem c10_empty_reply (name payload old : Str) (st : AgentState) (req : Request)
    (hdec : jsonDecodeRequest payload = some req)
    (hnm : goStartsWith payload respMarker = false) :
    (onMessage name st payload (some [])).pubs = [(str "clients/" ++ name, str "X-")]
    ∧ (onMessage name st payload (some [])).state.stats = st.stats
    ∧ gwCallback old (str "X-") = []
    ∧ waitCount (fun _ => []) = 40
    ∧ afterWait [] = timeout503 := by
  refine ⟨?_, ?_, ?_, by decide, by simp [afterWait]⟩
  · simp [onMessage, hnm, hdec]
  · simp [onMessage, hnm, hdec, goSplitChar]
  · have := gwCallback_marker old []
    simpa using this

/-- Witness for C10 with the empty JSON envelope. -/
theorem c10_empty_reply_witness :
    (onMessage (str "cake") ⟨[], []⟩ (str "\x7b\x7d") (some [])).pubs
        = [(str "clients/cake", str "X-")]
    ∧ waitCount (fun _ => []) = 40 :=
  ⟨(c10_empty_reply (str "cake") (str "\x7b\x7d") [] ⟨[], []⟩ ⟨[], [], []⟩
      (by decide) (by decide)).1,
   (c10_empty_reply (str "cake") (str "\x7b\x7d") [] ⟨[], []⟩ ⟨[], [], []⟩
      (by decide) (by decide)).2.2.2.1⟩
example : labelOf (str "localhost") = str "localhost" := by decide
example : gwCallback (str "a") (str "X-hello") = str "hello" := by decide
example : gwCallback (str "a") (str "json-blob") = str "a" := by decide
example : waitCount (fun _ => []) = 40 := by decide
example : waitCount (fun _ => str "R") = 0 := by decide
